import Mathlib

/-!
Verification development for the capstone travel-agent service.

The definitions below are a shallow embedding of the Python source:

* `agent/agent/tools/itineraryTools.py` — the itinerary CRUD tools backed by
  Azure Cosmos DB (`get_itinerary`, `update_itinerary`, the four `add_*` tools,
  and `verify_location_with_azure_maps`).
* `agent/agent/graph.py` — the supervisor tools that delegate to specialist
  agents (`find_flights`, `find_hotels`, `find_activities`,
  `itinerary_operations`).
* `agent/graph.py` — the human-approval graph (`human_approval`,
  `make_human_approval`, and the static edge table).
* `agent/routes/chat_routes.py` — the inbound chat handler
  (`chat_completions`).

Modelling conventions:

* Python dicts with a fixed key schema become Lean structures; a key that the
  code sets only conditionally becomes an `Option` field (`none` = key absent).
* Python truthiness tests on optional strings (`if seat:`) are `pyTruthy`;
  `is not None` tests are `Option` pattern matches.
* The Cosmos DB container is a list of stored documents.  Cosmos maintains a
  server-side version marker (`_etag`) on every document, rotated on each
  write; the model keeps it as the `etag` field of `StoredItem`.  The Python
  code never reads or sends this marker — it appears in the model only so
  that statements about the concurrency token of a stored itinerary can be
  expressed.
* External effects are explicit parameters: the Azure Maps HTTP exchange is a
  `MapsApiOutcome` value, `datetime.utcnow()` is a `now : String` argument,
  and the specialist language-model agents are response oracles.
* Numeric amounts (costs, budgets) are `Rat`; no arithmetic is performed on
  them by the code, only storage and comparison.
-/

/-- Python truthiness of an optional string: `None` and `""` are falsy. -/
def pyTruthy : Option String → Bool
  | none => false
  | some s => s != ""

/-- Keep an optional string only when it is Python-truthy; models the
`if x: d[k] = x` idiom that stores a key only for truthy values. -/
def truthyOpt (o : Option String) : Option String :=
  if pyTruthy o then o else none

/-! ## Dates

`datetime.fromisoformat` as called by `update_itinerary`.  The embedding
covers the version-stable core of the CPython grammar — the strings every
CPython from 3.7 through 3.13 parses identically: an extended-format date
`YYYY-MM-DD` (calendar-valid, year at least `MINYEAR = 1` — CPython raises
`ValueError` on year 0), optionally followed by one arbitrary separator
character (CPython allows any single character in place of `T`) and a
naive time `HH[:MM[:SS]]`.  A parsed value is encoded as the number
`((y * 100 + m) * 100 + d) * 1000000 + (hh * 10000 + mm * 100 + ss)`, whose
`Nat` order coincides with the chronological order of naive datetimes, so
the `start >= end` comparison of `update_itinerary` is the key comparison.
A date-only string parses to midnight, as in CPython.  Strings outside
this core (basic `YYYYMMDD` and week-date formats, fractional seconds,
timezone offsets — accepted only by newer interpreters, or producing
aware datetimes whose comparison with naive ones raises `TypeError`) are
conservatively unparsed; every quantified theorem over dates therefore
relies only on the parse-success direction, where this model and every
supported interpreter agree, never on a model parse failure. -/

def digitVal (c : Char) : Nat := c.toNat - 48

def isLeapYear (y : Nat) : Bool :=
  y % 4 == 0 && (y % 100 != 0 || y % 400 == 0)

def daysInMonth (y m : Nat) : Nat :=
  if m == 2 then (if isLeapYear y then 29 else 28)
  else if m == 4 || m == 6 || m == 9 || m == 11 then 30
  else 31

/-- The time component `HH[:MM[:SS]]`, encoded as `hh * 10000 + mm * 100 + ss`. -/
def parseTime : List Char → Option Nat
  | [h1, h2] =>
    if h1.isDigit && h2.isDigit then
      let hh := digitVal h1 * 10 + digitVal h2
      if hh ≤ 23 then some (hh * 10000) else none
    else none
  | [h1, h2, c1, m1, m2] =>
    if h1.isDigit && h2.isDigit && c1 == ':' && m1.isDigit && m2.isDigit then
      let hh := digitVal h1 * 10 + digitVal h2
      let mm := digitVal m1 * 10 + digitVal m2
      if hh ≤ 23 && mm ≤ 59 then some (hh * 10000 + mm * 100) else none
    else none
  | [h1, h2, c1, m1, m2, c2, s1, s2] =>
    if h1.isDigit && h2.isDigit && c1 == ':' && m1.isDigit && m2.isDigit &&
       c2 == ':' && s1.isDigit && s2.isDigit then
      let hh := digitVal h1 * 10 + digitVal h2
      let mm := digitVal m1 * 10 + digitVal m2
      let ss := digitVal s1 * 10 + digitVal s2
      if hh ≤ 23 && mm ≤ 59 && ss ≤ 59 then
        some (hh * 10000 + mm * 100 + ss)
      else none
    else none
  | _ => none

/-- Order-preserving encoding of a naive datetime. -/
def dateTimeKey (y m d t : Nat) : Nat :=
  ((y * 100 + m) * 100 + d) * 1000000 + t

def fromisoformat (s : String) : Option Nat :=
  match s.toList with
  | y1 :: y2 :: y3 :: y4 :: c1 :: m1 :: m2 :: c2 :: d1 :: d2 :: rest =>
    if y1.isDigit && y2.isDigit && y3.isDigit && y4.isDigit && c1 == '-' &&
       m1.isDigit && m2.isDigit && c2 == '-' && d1.isDigit && d2.isDigit then
      let y := ((digitVal y1 * 10 + digitVal y2) * 10 + digitVal y3) * 10 + digitVal y4
      let m := digitVal m1 * 10 + digitVal m2
      let d := digitVal d1 * 10 + digitVal d2
      if 1 ≤ y && 1 ≤ m && m ≤ 12 && 1 ≤ d && d ≤ daysInMonth y m then
        match rest with
        | [] => some (dateTimeKey y m d 0)
        | _sep :: timeChars =>
          match parseTime timeChars with
          | some t => some (dateTimeKey y m d t)
          | none => none
      else none
    else none
  | _ => none

/-! ## Azure Maps location verification

`verify_location_with_azure_maps` issues one HTTP request to the Azure Maps
fuzzy-search API.  The exchange is abstracted as a `MapsApiOutcome`: either
the call raised an exception, or it returned a status code together with the
parsed `results` array.  The settings lookup
`getattr(settings, "azure_maps_api_key", None)` is the `azure_maps_key`
argument. -/

/-- The `address` object of one Azure Maps search result; every key is
optional in the payload, mirroring `address_info.get(...)`. -/
structure RawAddress where
  freeformAddress : Option String := none
  municipality : Option String := none
  municipalitySubdivision : Option String := none
  countrySubdivision : Option String := none
  postalCode : Option String := none
  country : Option String := none
  countryCode : Option String := none
deriving DecidableEq

/-- One entry of the `results` array: nested `address` and `position`. -/
structure RawResult where
  address : RawAddress
  lat : Option Rat := none
  lon : Option Rat := none
deriving DecidableEq

/-- Outcome of the HTTP exchange with Azure Maps. -/
inductive MapsApiOutcome where
  | exn
  | response (statusCode : Nat) (results : List RawResult)
deriving DecidableEq

/-- The standardized location object the tools store alongside list items. -/
structure AzureMapsData where
  freeformAddress : String
  municipality : String
  countrySubdivision : String
  postalCode : String
  country : String
  countryCode : String
  latitude : Option Rat
  longitude : Option Rat
deriving DecidableEq

def verify_location_with_azure_maps (azure_maps_key : Option String)
    (outcome : MapsApiOutcome) : Option AzureMapsData :=
  if !pyTruthy azure_maps_key then none
  else
    match outcome with
    | .exn => none
    | .response statusCode results =>
      if statusCode != 200 then none
      else
        match results with
        | [] => none
        | r :: _ =>
          some
            { freeformAddress := r.address.freeformAddress.getD ""
              municipality :=
                if pyTruthy r.address.municipality then
                  r.address.municipality.getD ""
                else r.address.municipalitySubdivision.getD ""
              countrySubdivision := r.address.countrySubdivision.getD ""
              postalCode := r.address.postalCode.getD ""
              country := r.address.country.getD ""
              countryCode := r.address.countryCode.getD ""
              latitude := r.lat
              longitude := r.lon }

/-! ## Itinerary data model

The `TypedDict` schemas of `itineraryTools.py`.  The nested
`departure`/`arrival` dicts of `Flight` are flattened into prefixed fields. -/

structure Flight where
  airline : String
  flightNumber : String
  departureAirport : String
  departureTime : String
  departureMapsData : Option AzureMapsData := none
  arrivalAirport : String
  arrivalTime : String
  arrivalMapsData : Option AzureMapsData := none
  seat : Option String := none
  confirmation : Option String := none
  cost : Option Rat := none
deriving DecidableEq

structure Activity where
  name : String
  description : Option String := none
  date : Option String := none
  time : Option String := none
  location : Option String := none
  cost : Option Rat := none
  bookingConfirmation : Option String := none
  azureMapsData : Option AzureMapsData := none
deriving DecidableEq

structure Accommodation where
  name : String
  type : String
  checkIn : String
  checkOut : String
  address : Option String := none
  confirmation : Option String := none
  cost : Option Rat := none
  azureMapsData : Option AzureMapsData := none
deriving DecidableEq

structure Restaurant where
  name : String
  cuisine : Option String := none
  date : Option String := none
  time : Option String := none
  address : Option String := none
  reservationConfirmation : Option String := none
  cost : Option Rat := none
  azureMapsData : Option AzureMapsData := none
deriving DecidableEq

structure Itinerary where
  id : String
  userId : String
  profileId : Option String := none
  title : String
  destination : String
  startDate : String
  endDate : String
  status : String
  budget : Option Rat := none
  currency : Option String := none
  flights : List Flight := []
  activities : List Activity := []
  accommodations : List Accommodation := []
  restaurants : List Restaurant := []
  notes : Option String := none
  updatedAt : Option String := none
deriving DecidableEq

/-! ## Cosmos DB container model -/

/-- A stored document together with the server-maintained version marker
(Cosmos `_etag`); the marker changes on every write. -/
structure StoredItem where
  doc : Itinerary
  etag : Nat
deriving DecidableEq

abbrev Container := List StoredItem

/-- `container.read_item(item=itinerary_id, partition_key=user_id)`. -/
def read_item (c : Container) (user_id itinerary_id : String) : Option StoredItem :=
  c.find? (fun s => s.doc.userId == user_id && s.doc.id == itinerary_id)

/-- `container.upsert_item(body=doc)`: replace the document with the same
id and partition key, rotating its version marker; insert when absent. -/
def upsert_item : Container → Itinerary → Container
  | [], doc => [⟨doc, 0⟩]
  | s :: rest, doc =>
    if s.doc.userId == doc.userId && s.doc.id == doc.id then
      ⟨doc, s.etag + 1⟩ :: rest
    else
      s :: upsert_item rest doc

/-! ## Itinerary tools -/

/-- The structured result every itinerary tool returns: a success dict
carrying the itinerary, or an error dict with an `error_type` tag.
(The `database_error` branches that wrap transport exceptions are outside
the model; the store itself is always reachable here.) -/
inductive ToolResult where
  | success (message : String) (itinerary : Itinerary)
  | error (error_type : String) (message : String)
deriving DecidableEq

def ToolResult.isSuccess : ToolResult → Bool
  | .success _ _ => true
  | .error _ _ => false

def ToolResult.errorType : ToolResult → Option String
  | .success _ _ => none
  | .error t _ => some t

def ToolResult.doc? : ToolResult → Option Itinerary
  | .success _ it => some it
  | .error _ _ => none

def notFoundMessage : String :=
  "Itinerary not found for user. Verify that both the itinerary_id and user_id are correct."

def updMsg : String :=
  "Successfully updated itinerary. do not call this tool again."

def get_itinerary (c : Container) (user_id itinerary_id : String) : ToolResult :=
  match read_item c user_id itinerary_id with
  | some s => .success "Successfully retrieved itinerary." s.doc
  | none => .error "not_found" notFoundMessage

/-- The optional keyword arguments of `update_itinerary`; `none` means the
argument was not provided. -/
structure UpdatePatch where
  title : Option String := none
  destination : Option String := none
  start_date : Option String := none
  end_date : Option String := none
  status : Option String := none
  budget : Option Rat := none
  currency : Option String := none
  flights : Option (List Flight) := none
  activities : Option (List Activity) := none
  accommodations : Option (List Accommodation) := none
  restaurants : Option (List Restaurant) := none
  notes : Option String := none
  profile_id : Option String := none
deriving DecidableEq

/-- The field-by-field `if x is not None: existing[k] = x` block of
`update_itinerary`, plus the `updatedAt` stamp. -/
def applyPatch (existing : Itinerary) (p : UpdatePatch) (now : String) : Itinerary :=
  { existing with
    title := p.title.getD existing.title
    destination := p.destination.getD existing.destination
    startDate := p.start_date.getD existing.startDate
    endDate := p.end_date.getD existing.endDate
    status := p.status.getD existing.status
    budget := p.budget <|> existing.budget
    currency := p.currency <|> existing.currency
    flights := p.flights.getD existing.flights
    activities := p.activities.getD existing.activities
    accommodations := p.accommodations.getD existing.accommodations
    restaurants := p.restaurants.getD existing.restaurants
    notes := p.notes <|> existing.notes
    profileId := p.profile_id <|> existing.profileId
    updatedAt := some now }

/-- `start_date if start_date else existing.get("startDate")` (truthiness). -/
def effectiveStart (p : UpdatePatch) (existing : Itinerary) : String :=
  if pyTruthy p.start_date then p.start_date.getD "" else existing.startDate

/-- `end_date if end_date else existing.get("endDate")` (truthiness). -/
def effectiveEnd (p : UpdatePatch) (existing : Itinerary) : String :=
  if pyTruthy p.end_date then p.end_date.getD "" else existing.endDate

/-- The `if start_date or end_date:` guard (truthiness). -/
def datesProvided (p : UpdatePatch) : Bool :=
  pyTruthy p.start_date || pyTruthy p.end_date

/-- The date-validation block of `update_itinerary`: `some err` aborts the
update with that error, `none` lets it proceed. -/
def validateDates (p : UpdatePatch) (existing : Itinerary) : Option ToolResult :=
  if datesProvided p then
    match fromisoformat (effectiveStart p existing),
          fromisoformat (effectiveEnd p existing) with
    | some st, some en =>
      if en ≤ st then
        some (.error "validation_error"
          "Invalid dates: start date must be before end date. Please provide valid dates.")
      else none
    | _, _ =>
      some (.error "validation_error"
        "Invalid date format. Dates must be in YYYY-MM-DD format.")
  else none

def update_itinerary (c : Container) (user_id itinerary_id : String)
    (p : UpdatePatch) (now : String) : ToolResult × Container :=
  match read_item c user_id itinerary_id with
  | none => (.error "not_found" notFoundMessage, c)
  | some s =>
    match validateDates p s.doc with
    | some err => (err, c)
    | none =>
      let updated := applyPatch s.doc p now
      (.success updMsg updated, upsert_item c updated)

/-! ## The four add tools

Each tool reads the itinerary (`get_itinerary`), builds one new item in
memory, appends it to the relevant list, and writes back through
`update_itinerary` with a patch carrying only that list.  The
verification results of the Azure Maps collaborator calls enter as
`Option AzureMapsData` arguments (the code `await`s
`verify_location_with_azure_maps` between reading and writing).  The write
phase is split out as `add_*_commit` so that interleavings of the two
`await` points of concurrent calls can be expressed. -/

def mkFlight (airline flight_number departure_airport departure_time
    arrival_airport arrival_time : String) (seat confirmation : Option String)
    (cost : Option Rat)
    (departure_maps_data arrival_maps_data : Option AzureMapsData) : Flight :=
  { airline := airline
    flightNumber := flight_number
    departureAirport := departure_airport
    departureTime := departure_time
    departureMapsData := departure_maps_data
    arrivalAirport := arrival_airport
    arrivalTime := arrival_time
    arrivalMapsData := arrival_maps_data
    seat := truthyOpt seat
    confirmation := truthyOpt confirmation
    cost := cost }

def add_flight_commit (c : Container) (user_id itinerary_id : String)
    (flights : List Flight) (now : String) : ToolResult × Container :=
  update_itinerary c user_id itinerary_id { flights := some flights } now

def add_flight_to_itinerary (c : Container) (user_id itinerary_id : String)
    (airline flight_number departure_airport departure_time
     arrival_airport arrival_time : String)
    (seat confirmation : Option String) (cost : Option Rat)
    (departure_maps_data arrival_maps_data : Option AzureMapsData)
    (now : String) : ToolResult × Container :=
  match get_itinerary c user_id itinerary_id with
  | .error t m => (.error t m, c)
  | .success _ itin =>
    add_flight_commit c user_id itinerary_id
      (itin.flights ++ [mkFlight airline flight_number departure_airport
        departure_time arrival_airport arrival_time seat confirmation cost
        departure_maps_data arrival_maps_data]) now

def mkAccommodation (name accommodation_type check_in check_out : String)
    (address confirmation : Option String) (cost : Option Rat)
    (azure_maps_data : Option AzureMapsData) : Accommodation :=
  { name := name
    type := accommodation_type
    checkIn := check_in
    checkOut := check_out
    address :=
      match azure_maps_data with
      | some d => some d.freeformAddress
      | none => truthyOpt address
    confirmation := truthyOpt confirmation
    cost := cost
    azureMapsData := azure_maps_data }

def add_accommodation_commit (c : Container) (user_id itinerary_id : String)
    (accommodations : List Accommodation) (now : String) : ToolResult × Container :=
  update_itinerary c user_id itinerary_id { accommodations := some accommodations } now

def add_accommodation_to_itinerary (c : Container) (user_id itinerary_id : String)
    (name accommodation_type check_in check_out : String)
    (address confirmation : Option String) (cost : Option Rat)
    (azure_maps_data : Option AzureMapsData) (now : String) : ToolResult × Container :=
  match get_itinerary c user_id itinerary_id with
  | .error t m => (.error t m, c)
  | .success _ itin =>
    add_accommodation_commit c user_id itinerary_id
      (itin.accommodations ++ [mkAccommodation name accommodation_type check_in
        check_out address confirmation cost azure_maps_data]) now

def mkActivity (name : String) (description date time location : Option String)
    (cost : Option Rat) (booking_confirmation : Option String)
    (azure_maps_data : Option AzureMapsData) : Activity :=
  { name := name
    description := truthyOpt description
    date := truthyOpt date
    time := truthyOpt time
    location :=
      match azure_maps_data with
      | some d => some d.freeformAddress
      | none => truthyOpt location
    azureMapsData := azure_maps_data
    cost := cost
    bookingConfirmation := truthyOpt booking_confirmation }

def add_activity_commit (c : Container) (user_id itinerary_id : String)
    (activities : List Activity) (now : String) : ToolResult × Container :=
  update_itinerary c user_id itinerary_id { activities := some activities } now

def add_activity_to_itinerary (c : Container) (user_id itinerary_id : String)
    (name : String) (description date time location : Option String)
    (cost : Option Rat) (booking_confirmation : Option String)
    (azure_maps_data : Option AzureMapsData) (now : String) : ToolResult × Container :=
  match get_itinerary c user_id itinerary_id with
  | .error t m => (.error t m, c)
  | .success _ itin =>
    add_activity_commit c user_id itinerary_id
      (itin.activities ++ [mkActivity name description date time location cost
        booking_confirmation azure_maps_data]) now

def mkRestaurant (name : String) (cuisine date time address : Option String)
    (reservation_confirmation : Option String) (cost : Option Rat)
    (azure_maps_data : Option AzureMapsData) : Restaurant :=
  { name := name
    cuisine := truthyOpt cuisine
    date := truthyOpt date
    time := truthyOpt time
    address :=
      match azure_maps_data with
      | some d => some d.freeformAddress
      | none => truthyOpt address
    reservationConfirmation := truthyOpt reservation_confirmation
    cost := cost
    azureMapsData := azure_maps_data }

def add_restaurant_commit (c : Container) (user_id itinerary_id : String)
    (restaurants : List Restaurant) (now : String) : ToolResult × Container :=
  update_itinerary c user_id itinerary_id { restaurants := some restaurants } now

def add_restaurant_to_itinerary (c : Container) (user_id itinerary_id : String)
    (name : String) (cuisine date time address : Option String)
    (reservation_confirmation : Option String) (cost : Option Rat)
    (azure_maps_data : Option AzureMapsData) (now : String) : ToolResult × Container :=
  match get_itinerary c user_id itinerary_id with
  | .error t m => (.error t m, c)
  | .success _ itin =>
    add_restaurant_commit c user_id itinerary_id
      (itin.restaurants ++ [mkRestaurant name cuisine date time address
        reservation_confirmation cost azure_maps_data]) now

/-! ## Spec-side gateway contract

The design document describes the aggregate gateway as
`update(user_id, itinerary_id, patch, expected_token) → Itinerary | Conflict | NotFound`,
failing with `Conflict` whenever `expected_token` differs from the current
`concurrency_token`.  No function in the source takes such a token; the
definition below follows the wording of the design document and exists only
to compare the code against it. -/

/-- Modelled from the spec: the section 4.6 gateway `update` contract with
optimistic concurrency, which is absent from the source code. -/
inductive SpecUpdateResult where
  | updated (it : Itinerary)
  | conflict
  | notFound
deriving DecidableEq

/-- Modelled from the spec: `update(user_id, itinerary_id, patch,
expected_token)` fails with `Conflict` when `expected_token` does not match
the current concurrency token of the stored aggregate, and otherwise
applies the patch. -/
def spec_gateway_update (c : Container) (user_id itinerary_id : String)
    (p : UpdatePatch) (expected_token : Nat) (now : String) :
    SpecUpdateResult × Container :=
  match read_item c user_id itinerary_id with
  | none => (.notFound, c)
  | some s =>
    if expected_token ≠ s.etag then (.conflict, c)
    else
      let updated := applyPatch s.doc p now
      (.updated updated, upsert_item c updated)

/-! ## Inbound chat handler

`chat_completions` of `agent/routes/chat_routes.py`: it wraps the request
body in one `HumanMessage` and invokes the supervisor agent keyed by
`thread_id`.  The handler performs no checkpoint inspection: the latest
checkpoint of the thread is passed to the model below only so that the
handler's independence from it can be stated. -/

inductive ChatMessage where
  | human (content : String)
  | ai (content : String)
deriving DecidableEq

/-- The request body schema (`models/models.py::ChatRequest`). -/
structure ChatRequest where
  content : String
  userId : Option String := none
  itineraryId : Option String := none
deriving DecidableEq

/-- What a handler submits to the graph engine for a thread: fresh input
messages for a new or continued run, or a resume command delivering a
decision value to a pending interrupt. -/
inductive GraphInvocation where
  | start (inputMessages : List ChatMessage)
  | resume (value : String)
deriving DecidableEq

/-- The engine-side view of the latest checkpoint of a thread. -/
structure CheckpointInfo where
  messages : List ChatMessage
  pendingInterrupt : Option String := none
deriving DecidableEq

/-- `chat_completions`: builds `HumanMessage(request.content)` and invokes
the agent with `{"messages": [user_message], ...}` under the thread's
config.  The latest checkpoint is never consulted. -/
def chat_completions (req : ChatRequest) (_latest : Option CheckpointInfo) :
    GraphInvocation :=
  .start [.human req.content]

/-- Modelled from the spec: the execution engine merges `start` input into
the thread state with the `messages` append reducer (section 3, "append"
merge policy); the engine itself is the langgraph library, outside the
source tree. -/
def mergeInvocationMessages (latest : Option CheckpointInfo)
    (inv : GraphInvocation) : List ChatMessage :=
  match inv with
  | .start inputMessages => (match latest with
      | some cp => cp.messages
      | none => []) ++ inputMessages
  | .resume _ => match latest with
      | some cp => cp.messages
      | none => []

/-! ## Supervisor delegation tools

`agent/agent/graph.py`: each supervisor tool body is a single unconditional
`await <specialist>.ainvoke({"messages": [...]})` followed by returning the
last message text.  The specialist agents are modelled as a response oracle
`String → String → String` (specialist name and request to response text),
and every underlying specialist call is recorded in an explicit log so that
"number of underlying calls" is expressible.  No tool consults the log:
nothing in the source tracks already-invoked requests. -/

abbrev SpecialistOracle := String → String → String

abbrev CallLog := List (String × String)

def invoke_specialist (agents : SpecialistOracle) (log : CallLog)
    (specialist request : String) : String × CallLog :=
  (agents specialist request, log ++ [(specialist, request)])

def find_flights (agents : SpecialistOracle) (log : CallLog)
    (request : String) : String × CallLog :=
  invoke_specialist agents log "flight_agent" request

def find_hotels (agents : SpecialistOracle) (log : CallLog)
    (request : String) : String × CallLog :=
  invoke_specialist agents log "hotel_agent" request

def find_activities (agents : SpecialistOracle) (log : CallLog)
    (request : String) : String × CallLog :=
  invoke_specialist agents log "activity_agent" request

def itinerary_operations (agents : SpecialistOracle) (log : CallLog)
    (request : String) : String × CallLog :=
  invoke_specialist agents log "itinerary_agent" request

/-! ## Human-approval graph

`agent/graph.py`: the compiled graph wires `flight_agent → human_approval`,
`approved_path → END`, `rejected_path → flight_agent`, with entry point
`flight_agent`.  `human_approval` suspends via `interrupt(...)`; on resume
the externally supplied decision value is the return value of that call,
and the node returns a `Command` with a dynamic `goto` and a state update. -/

/-- A `Command(goto=..., update=...)` returned by an approval node:
`decisionUpdate` is the value written to the decision key of the state
update, and `messagesUpdate` is the new value of `messages` when the
update carries one. -/
structure ApprovalCommand where
  goto : String
  decisionUpdate : String
  messagesUpdate : Option (List String) := none
deriving DecidableEq

/-- The `human_approval` node, post-resume: `resumeValue` is what
`interrupt(...)` returns.  The decision key of its update is `"input"`. -/
def human_approval (messages : List String) (resumeValue : String) :
    ApprovalCommand :=
  if resumeValue == "approve" then
    { goto := "approved_path", decisionUpdate := "approved" }
  else
    { goto := "rejected_path", decisionUpdate := "rejected",
      messagesUpdate := some (messages ++ [resumeValue]) }

/-- The `make_human_approval` factory (unused by the compiled graph): its
nodes write the decision key `"decision"` and never touch `messages`. -/
def make_human_approval (approve_dest reject_dest : String)
    (resumeValue : String) : ApprovalCommand :=
  if resumeValue == "approve" then
    { goto := approve_dest, decisionUpdate := "approved" }
  else
    { goto := reject_dest, decisionUpdate := "rejected" }

/-- The static edge table of the compiled approval graph; `"__end__"` is
the langgraph END marker. -/
def approval_graph_edges : List (String × String) :=
  [("flight_agent", "human_approval"),
   ("approved_path", "__end__"),
   ("rejected_path", "flight_agent")]

def approval_graph_entry : String := "flight_agent"

/-! ## Auxiliary definitions used by the statements -/

/-- The itinerary lists as stored in the container, projected per category. -/
def storedFlights (c : Container) (user_id itinerary_id : String) : Option (List Flight) :=
  (read_item c user_id itinerary_id).map (fun s => s.doc.flights)

def storedActivities (c : Container) (user_id itinerary_id : String) : Option (List Activity) :=
  (read_item c user_id itinerary_id).map (fun s => s.doc.activities)

def storedAccommodations (c : Container) (user_id itinerary_id : String) : Option (List Accommodation) :=
  (read_item c user_id itinerary_id).map (fun s => s.doc.accommodations)

def storedRestaurants (c : Container) (user_id itinerary_id : String) : Option (List Restaurant) :=
  (read_item c user_id itinerary_id).map (fun s => s.doc.restaurants)

/-- Advance the version marker of every stored document without touching
the documents: two containers related by `bumpEtags` agree on all data and
differ precisely in their concurrency tokens. -/
def bumpEtags (c : Container) : Container :=
  c.map (fun s => ⟨s.doc, s.etag + 1⟩)

/-- Every field present in the patch appears in the itinerary with the
value the patch supplied. -/
def patchApplied (p : UpdatePatch) (it : Itinerary) : Prop :=
  (∀ v, p.title = some v → it.title = v) ∧
  (∀ v, p.destination = some v → it.destination = v) ∧
  (∀ v, p.start_date = some v → it.startDate = v) ∧
  (∀ v, p.end_date = some v → it.endDate = v) ∧
  (∀ v, p.status = some v → it.status = v) ∧
  (∀ v, p.budget = some v → it.budget = some v) ∧
  (∀ v, p.currency = some v → it.currency = some v) ∧
  (∀ v, p.flights = some v → it.flights = v) ∧
  (∀ v, p.activities = some v → it.activities = v) ∧
  (∀ v, p.accommodations = some v → it.accommodations = v) ∧
  (∀ v, p.restaurants = some v → it.restaurants = v) ∧
  (∀ v, p.notes = some v → it.notes = some v) ∧
  (∀ v, p.profile_id = some v → it.profileId = some v)

/-- Two concurrent `add_flight_to_itinerary` calls for the same itinerary
under the interleaving: call A runs its read phase, call B runs its read
phase, call A commits, call B commits.  The phases are exactly the
`get_itinerary` read and `add_flight_commit` write that
`add_flight_to_itinerary` is composed of; `fA` and `fB` are the flight
objects each call builds in memory between the two phases.  Returns both
tool results and the final container. -/
def two_adds_interleaved (c : Container) (user_id itinerary_id : String)
    (fA fB : Flight) (nowA nowB : String) :
    ToolResult × ToolResult × Container :=
  match get_itinerary c user_id itinerary_id with
  | .error t m => (.error t m, .error t m, c)
  | .success _ itinA =>
    match get_itinerary c user_id itinerary_id with
    | .error t m => (.error t m, .error t m, c)
    | .success _ itinB =>
      let rA := add_flight_commit c user_id itinerary_id
        (itinA.flights ++ [fA]) nowA
      let rB := add_flight_commit rA.2 user_id itinerary_id
        (itinB.flights ++ [fB]) nowB
      (rA.1, rB.1, rB.2)

/-! ## Concrete data for counterexamples and witnesses -/

/-- A representative stored itinerary. -/
def sampleItin : Itinerary :=
  { id := "itin-1", userId := "user-1", title := "Tokyo Trip",
    destination := "Tokyo", startDate := "2025-06-01", endDate := "2025-06-10",
    status := "planning" }

/-- A container in which `sampleItin` has already been written twice: its
current concurrency token is 1, so a client that read the document at
token 0 is stale. -/
def c1container : Container := [⟨sampleItin, 1⟩]

def c1patch : UpdatePatch := { title := some "My Trip" }

/-- A container holding `sampleItin` at token 0 with no flights. -/
def c2container : Container := [⟨sampleItin, 0⟩]

def c2flightA : Flight :=
  mkFlight "Delta" "DL1" "JFK" "2025-06-01T08:00:00" "NRT" "2025-06-02T14:00:00"
    none none none none none

def c2flightB : Flight :=
  mkFlight "United" "UA7" "LAX" "2025-06-01T09:00:00" "NRT" "2025-06-02T15:00:00"
    none none none none none

/-- The container `sampleItin` lives in at token 3. -/
def c3container : Container := [⟨sampleItin, 3⟩]

def c3patch : UpdatePatch := { notes := some "bring a charger" }

/-- C4 stale-commit scenario: the container after an unrelated
`update_itinerary` retitled `sampleItin`, rotating its token from 0
(the value at which a pending add read it) to 1. -/
def c4container : Container :=
  (update_itinerary c2container "user-1" "itin-1" { title := some "Renamed" }
    "2025-05-02T00:00:00").2

/-- The flights list a pending `add_flight_to_itinerary` computed from its
read of `c2container`, before `c4container` superseded that read. -/
def c4staleFlights : List Flight := sampleItin.flights ++ [c2flightA]

def c5request : ChatRequest := { content := "show me cheaper options" }

/-- A latest checkpoint with a pending interrupt for the thread. -/
def c5checkpoint : CheckpointInfo :=
  { messages := [.ai "Do you approve the following output?"],
    pendingInterrupt := some "Do you approve the following output?" }

def c6agents : SpecialistOracle := fun _ _ => "Here are the flight options."

def c6request : String := "find flights JFK to NRT June 1"

def c9container : Container := [⟨sampleItin, 0⟩]

def c10patch : UpdatePatch := { start_date := some "" }

def c10container : Container := [⟨sampleItin, 0⟩]

/-! ## Helper lemmas -/

theorem read_item_ids {c : Container} {uid iid : String} {s : StoredItem}
    (h : read_item c uid iid = some s) : s.doc.userId = uid ∧ s.doc.id = iid := by
  have h2 := List.find?_some h
  simp only [Bool.and_eq_true, beq_iff_eq] at h2
  exact h2

theorem read_item_upsert (c : Container) (uid iid : String) (doc : Itinerary)
    (s : StoredItem) (hu : doc.userId = uid) (hi : doc.id = iid)
    (h : read_item c uid iid = some s) :
    read_item (upsert_item c doc) uid iid = some ⟨doc, s.etag + 1⟩ := by
  subst hu hi
  induction c with
  | nil => simp [read_item] at h
  | cons a rest ih =>
    by_cases hc : (a.doc.userId == doc.userId && a.doc.id == doc.id) = true
    · have hs : a = s := by
        simpa [read_item, List.find?_cons_of_pos, hc] using h
      subst hs
      simp [read_item, upsert_item, hc, List.find?_cons_of_pos]
    · have hrest : read_item rest doc.userId doc.id = some s := by
        simpa [read_item, List.find?_cons_of_neg, hc] using h
      have := ih hrest
      simpa [read_item, upsert_item, hc, List.find?_cons_of_neg] using this

theorem update_success {c : Container} {uid iid : String} {p : UpdatePatch}
    {now : String} {s : StoredItem} (h : read_item c uid iid = some s)
    (hv : validateDates p s.doc = none) :
    update_itinerary c uid iid p now =
      (.success updMsg (applyPatch s.doc p now),
       upsert_item c (applyPatch s.doc p now)) := by
  simp [update_itinerary, h, hv]

theorem stored_after_patch {c : Container} {uid iid : String} {s : StoredItem}
    (h : read_item c uid iid = some s) (p : UpdatePatch) (now : String) :
    read_item (upsert_item c (applyPatch s.doc p now)) uid iid =
      some ⟨applyPatch s.doc p now, s.etag + 1⟩ := by
  obtain ⟨hu, hi⟩ := read_item_ids h
  exact read_item_upsert c uid iid _ s hu hi h

theorem get_itinerary_some {c : Container} {uid iid : String} {s : StoredItem}
    (h : read_item c uid iid = some s) :
    get_itinerary c uid iid = .success "Successfully retrieved itinerary." s.doc := by
  simp [get_itinerary, h]

theorem read_item_bump (c : Container) (uid iid : String) :
    read_item (bumpEtags c) uid iid =
      (read_item c uid iid).map (fun s => ⟨s.doc, s.etag + 1⟩) := by
  induction c with
  | nil => simp [read_item, bumpEtags]
  | cons a rest ih =>
    by_cases hc : (a.doc.userId == uid && a.doc.id == iid) = true
    · simp [read_item, bumpEtags, List.find?_cons, hc]
    · simp only [read_item, bumpEtags, List.map_cons, List.find?_cons] at ih ⊢
      rw [Bool.not_eq_true] at hc
      rw [hc]
      exact ih

theorem validateDates_error {p : UpdatePatch} {it : Itinerary} {r : ToolResult}
    (h : validateDates p it = some r) :
    ∃ m, r = .error "validation_error" m := by
  unfold validateDates at h
  split at h
  · split at h
    · split at h
      · exact ⟨_, (Option.some.inj h).symm⟩
      · exact absurd h (by simp)
    all_goals exact ⟨_, (Option.some.inj h).symm⟩
  · exact absurd h (by simp)

theorem add_flight_eq {c : Container} {uid iid : String} {s : StoredItem}
    (h : read_item c uid iid = some s)
    (airline fn dep dept arr arrt : String) (seat conf : Option String)
    (cost : Option Rat) (dm am : Option AzureMapsData) (now : String) :
    add_flight_to_itinerary c uid iid airline fn dep dept arr arrt seat conf cost dm am now =
      (.success updMsg
        (applyPatch s.doc
          { flights := some (s.doc.flights ++
              [mkFlight airline fn dep dept arr arrt seat conf cost dm am]) } now),
       upsert_item c
        (applyPatch s.doc
          { flights := some (s.doc.flights ++
              [mkFlight airline fn dep dept arr arrt seat conf cost dm am]) } now)) := by
  have hg := get_itinerary_some h
  simp only [add_flight_to_itinerary, hg, add_flight_commit]
  exact update_success h rfl

theorem add_accommodation_eq {c : Container} {uid iid : String} {s : StoredItem}
    (h : read_item c uid iid = some s)
    (name ty ci co : String) (address conf : Option String)
    (cost : Option Rat) (maps : Option AzureMapsData) (now : String) :
    add_accommodation_to_itinerary c uid iid name ty ci co address conf cost maps now =
      (.success updMsg
        (applyPatch s.doc
          { accommodations := some (s.doc.accommodations ++
              [mkAccommodation name ty ci co address conf cost maps]) } now),
       upsert_item c
        (applyPatch s.doc
          { accommodations := some (s.doc.accommodations ++
              [mkAccommodation name ty ci co address conf cost maps]) } now)) := by
  have hg := get_itinerary_some h
  simp only [add_accommodation_to_itinerary, hg, add_accommodation_commit]
  exact update_success h rfl

theorem add_activity_eq {c : Container} {uid iid : String} {s : StoredItem}
    (h : read_item c uid iid = some s)
    (name : String) (description date time location : Option String)
    (cost : Option Rat) (bconf : Option String) (maps : Option AzureMapsData)
    (now : String) :
    add_activity_to_itinerary c uid iid name description date time location cost bconf maps now =
      (.success updMsg
        (applyPatch s.doc
          { activities := some (s.doc.activities ++
              [mkActivity name description date time location cost bconf maps]) } now),
       upsert_item c
        (applyPatch s.doc
          { activities := some (s.doc.activities ++
              [mkActivity name description date time location cost bconf maps]) } now)) := by
  have hg := get_itinerary_some h
  simp only [add_activity_to_itinerary, hg, add_activity_commit]
  exact update_success h rfl

theorem add_restaurant_eq {c : Container} {uid iid : String} {s : StoredItem}
    (h : read_item c uid iid = some s)
    (name : String) (cuisine date time address rconf : Option String)
    (cost : Option Rat) (maps : Option AzureMapsData) (now : String) :
    add_restaurant_to_itinerary c uid iid name cuisine date time address rconf cost maps now =
      (.success updMsg
        (applyPatch s.doc
          { restaurants := some (s.doc.restaurants ++
              [mkRestaurant name cuisine date time address rconf cost maps]) } now),
       upsert_item c
        (applyPatch s.doc
          { restaurants := some (s.doc.restaurants ++
              [mkRestaurant name cuisine date time address rconf cost maps]) } now)) := by
  have hg := get_itinerary_some h
  simp only [add_restaurant_to_itinerary, hg, add_restaurant_commit]
  exact update_success h rfl

theorem patchApplied_applyPatch (p : UpdatePatch) (it : Itinerary) (now : String) :
    patchApplied p (applyPatch it p now) := by
  refine ⟨?_, ?_, ?_, ?_, ?_, ?_, ?_, ?_, ?_, ?_, ?_, ?_, ?_⟩ <;>
    intro v hv <;> simp [applyPatch, hv]

/-! ## Claim theorems -/

/-- C7: on resume of the human-approval step, decision value "approve"
dynamic-routes to the approved destination `approved_path` and records the
decision as "approved" (under the state key `input`); any other supplied
value routes to the rejection destination `rejected_path` — which the
static edge table sends back to the originating `flight_agent` step — with
the feedback value appended to `messages`, and the recorded decision is
"rejected", not "approved". -/
theorem c7_human_approval_routing (messages : List String) (v : String) :
    human_approval messages "approve" =
      { goto := "approved_path", decisionUpdate := "approved" } ∧
    (v ≠ "approve" →
      human_approval messages v =
        { goto := "rejected_path", decisionUpdate := "rejected",
          messagesUpdate := some (messages ++ [v]) }) ∧
    ("rejected_path", "flight_agent") ∈ approval_graph_edges ∧
    ("flight_agent", "human_approval") ∈ approval_graph_edges := by
  refine ⟨rfl, ?_, by simp [approval_graph_edges], by simp [approval_graph_edges]⟩
  intro hv
  simp [human_approval, hv]

/-- Witness for C7 at the spec's scenario inputs: approval, and the
rejection feedback "show me cheaper options". -/
theorem c7_witness :
    human_approval ["flight results"] "approve" =
      { goto := "approved_path", decisionUpdate := "approved" } ∧
    human_approval ["flight results"] "show me cheaper options" =
      { goto := "rejected_path", decisionUpdate := "rejected",
        messagesUpdate := some (["flight results"] ++ ["show me cheaper options"]) } :=
  ⟨(c7_human_approval_routing ["flight results"] "show me cheaper options").1,
   (c7_human_approval_routing ["flight results"] "show me cheaper options").2.1
     (by decide)⟩

/-- C6 counterexample: invoking the `find_flights` supervisor tool twice
with the same request yields two underlying specialist calls, not one —
the tool keeps no record of already-invoked requests, returns no
`DuplicateInvocation` signal, and has no cache. -/
theorem c6_counterexample :
    (find_flights c6agents (find_flights c6agents [] c6request).2 c6request).2 =
      [("flight_agent", c6request), ("flight_agent", c6request)] ∧
    (find_flights c6agents (find_flights c6agents [] c6request).2 c6request).2.length ≠ 1 := by
  exact ⟨rfl, by decide⟩

/-- C6 amended: the delegation tools perform no duplicate tracking — every
invocation of a supervisor tool performs exactly one underlying specialist
call, appending it to the call log unconditionally and passing the
specialist response through; duplicate avoidance is left to prompt
instructions. -/
theorem c6_every_call_invokes_specialist (agents : SpecialistOracle)
    (log : CallLog) (request : String) :
    find_flights agents log request =
      (agents "flight_agent" request, log ++ [("flight_agent", request)]) ∧
    find_hotels agents log request =
      (agents "hotel_agent" request, log ++ [("hotel_agent", request)]) ∧
    find_activities agents log request =
      (agents "activity_agent" request, log ++ [("activity_agent", request)]) ∧
    itinerary_operations agents log request =
      (agents "itinerary_agent" request, log ++ [("itinerary_agent", request)]) :=
  ⟨rfl, rfl, rfl, rfl⟩

/-- C5 counterexample: with a pending interrupt recorded on the latest
checkpoint of the thread, the chat handler still submits fresh input
messages (a `start` invocation) — it does not trigger a `resume`. -/
theorem c5_counterexample :
    c5checkpoint.pendingInterrupt = some "Do you approve the following output?" ∧
    chat_completions c5request (some c5checkpoint) =
      .start [.human "show me cheaper options"] ∧
    chat_completions c5request (some c5checkpoint) ≠
      .resume "show me cheaper options" := by
  refine ⟨rfl, rfl, by decide⟩

/-- C5 amended: the chat handler always starts or continues a run with
`message_text` wrapped as one human message — the engine's append reducer
then concatenates it onto the messages of the latest checkpoint — and it
never inspects the checkpoint for a pending interrupt nor issues a
resume (resuming is done only by the separate resume endpoints). -/
theorem c5_handler_always_starts_run (req : ChatRequest)
    (latest : Option CheckpointInfo) :
    chat_completions req latest = .start [.human req.content] ∧
    mergeInvocationMessages latest (chat_completions req latest) =
      (latest.elim [] CheckpointInfo.messages) ++ [.human req.content] := by
  refine ⟨rfl, ?_⟩
  cases latest <;> rfl

/-- C1 counterexample: `c1container` stores the itinerary at concurrency
token 1, so a caller whose knowledge of the document is from token 0 holds
a mismatched expected token.  The claim requires such an update to fail
with `Conflict` and leave the store unchanged; the source `update_itinerary`
accepts no expected token at all, reports success, and overwrites the
stored document.  The spec-side contract `spec_gateway_update`, evaluated
at the same input with the stale expected token 0, shows what the claim
demanded: `conflict` and an unchanged container. -/
theorem c1_counterexample :
    (update_itinerary c1container "user-1" "itin-1" c1patch "2025-05-01T00:00:00").1.isSuccess = true ∧
    (update_itinerary c1container "user-1" "itin-1" c1patch "2025-05-01T00:00:00").2 ≠ c1container ∧
    spec_gateway_update c1container "user-1" "itin-1" c1patch 0 "2025-05-01T00:00:00" =
      (.conflict, c1container) := by
  refine ⟨rfl, by decide, rfl⟩

/-- C1 amended: `update_itinerary` accepts no expected concurrency token
and performs no token comparison — its result is identical on two
containers that differ only in the concurrency tokens of their documents,
and no outcome it produces is a `Conflict` (its error kinds are only
`not_found` and `validation_error`); every update on an existing itinerary
that passes date validation succeeds unconditionally, last write wins. -/
theorem c1_update_ignores_concurrency_token (c : Container) (uid iid : String)
    (p : UpdatePatch) (now : String) :
    (update_itinerary (bumpEtags c) uid iid p now).1 =
      (update_itinerary c uid iid p now).1 ∧
    (update_itinerary c uid iid p now).1.errorType ≠ some "conflict" := by
  constructor
  · unfold update_itinerary
    rw [read_item_bump]
    cases hr : read_item c uid iid with
    | none => rfl
    | some s =>
      cases hv : validateDates p s.doc with
      | some err => simp [hv]
      | none => simp [hv]
  · unfold update_itinerary
    cases hr : read_item c uid iid with
    | none => simp [ToolResult.errorType]
    | some s =>
      cases hv : validateDates p s.doc with
      | some err =>
        obtain ⟨m, rfl⟩ := validateDates_error hv
        simp [hv, ToolResult.errorType]
      | none => simp [hv, ToolResult.errorType]

/-- C3 counterexample: a successful `update_itinerary` carries no supplied
concurrency token at all — at this concrete input the code update succeeds
and its outcome is unchanged when every stored concurrency token is
advanced, while the spec-side token-checked contract
(`spec_gateway_update`, given the stale expected token 2 against current
token 3) returns `conflict`.  There is therefore no "token supplied to the
update" for the follow-up `get` to differ from, refuting the claim's
token clause as stated. -/
theorem c3_counterexample :
    (update_itinerary c3container "user-1" "itin-1" c3patch "2025-05-03T01:00:00").1.isSuccess = true ∧
    (update_itinerary (bumpEtags c3container) "user-1" "itin-1" c3patch "2025-05-03T01:00:00").1 =
      (update_itinerary c3container "user-1" "itin-1" c3patch "2025-05-03T01:00:00").1 ∧
    spec_gateway_update c3container "user-1" "itin-1" c3patch 2 "2025-05-03T01:00:00" =
      (.conflict, c3container) := by
  refine ⟨rfl, rfl, rfl⟩

/-- C3 amended: for every successful `update_itinerary` with patch `p` on
an existing itinerary, an immediately following `get_itinerary` returns an
itinerary containing every field present in `p` with the values `p`
supplied, and the stored document's concurrency token after the update
differs from its pre-update value (Cosmos rotates the version marker on
every write); no token is supplied to the update itself, which accepts
none.  The hypothesis is the success of the update, exactly as the claim
quantifies — the theorem asserts nothing at calls the program rejects. -/
theorem c3_update_get_roundtrip (c : Container) (uid iid : String)
    (p : UpdatePatch) (now : String) (s : StoredItem)
    (h : read_item c uid iid = some s)
    (hsucc : (update_itinerary c uid iid p now).1.isSuccess = true) :
    get_itinerary (update_itinerary c uid iid p now).2 uid iid =
      .success "Successfully retrieved itinerary." (applyPatch s.doc p now) ∧
    patchApplied p (applyPatch s.doc p now) ∧
    read_item (update_itinerary c uid iid p now).2 uid iid =
      some ⟨applyPatch s.doc p now, s.etag + 1⟩ ∧
    s.etag + 1 ≠ s.etag := by
  cases hv : validateDates p s.doc with
  | some err =>
    exfalso
    obtain ⟨m, rfl⟩ := validateDates_error hv
    rw [show update_itinerary c uid iid p now =
        (.error "validation_error" m, c) from by simp [update_itinerary, h, hv]] at hsucc
    simp [ToolResult.isSuccess] at hsucc
  | none =>
    rw [update_success h hv]
    refine ⟨?_, patchApplied_applyPatch p s.doc now,
      stored_after_patch h p now, by omega⟩
    simp [get_itinerary, stored_after_patch h p now]

/-- Witness for C3: a concrete successful update of the notes field at
stored token 3, followed by a get returning the patched document at
token 4. -/
theorem c3_witness :
    read_item c3container "user-1" "itin-1" = some ⟨sampleItin, 3⟩ ∧
    (update_itinerary c3container "user-1" "itin-1" c3patch "2025-05-03T00:00:00").1.isSuccess = true ∧
    (get_itinerary (update_itinerary c3container "user-1" "itin-1" c3patch "2025-05-03T00:00:00").2 "user-1" "itin-1" =
       .success "Successfully retrieved itinerary." (applyPatch sampleItin c3patch "2025-05-03T00:00:00") ∧
     patchApplied c3patch (applyPatch sampleItin c3patch "2025-05-03T00:00:00") ∧
     read_item (update_itinerary c3container "user-1" "itin-1" c3patch "2025-05-03T00:00:00").2 "user-1" "itin-1" =
       some ⟨applyPatch sampleItin c3patch "2025-05-03T00:00:00", 3 + 1⟩ ∧
     3 + 1 ≠ 3) :=
  ⟨rfl, rfl,
   c3_update_get_roundtrip c3container "user-1" "itin-1" c3patch
     "2025-05-03T00:00:00" ⟨sampleItin, 3⟩ rfl rfl⟩

/-- C4 amended: each add operation is composed as `get_itinerary` → append
exactly one new item to the relevant list in memory → `update_itinerary`
carrying only that list (no concurrency token is threaded from the get to
the update); on success the relevant stored list equals its previous value
with the one new item appended at the end, and the other three lists are
unchanged. -/
theorem c4_adds_compose (c : Container) (uid iid : String) (s : StoredItem)
    (airline fn dep dept arr arrt : String) (seat fconf : Option String)
    (fcost : Option Rat) (dm am : Option AzureMapsData)
    (aname aty aci aco : String) (aaddr aconf : Option String)
    (acost : Option Rat) (amaps : Option AzureMapsData)
    (vname : String) (vdesc vdate vtime vloc : Option String)
    (vcost : Option Rat) (vbconf : Option String) (vmaps : Option AzureMapsData)
    (rname : String) (rcuisine rdate rtime raddr rrconf : Option String)
    (rcost : Option Rat) (rmaps : Option AzureMapsData)
    (now : String) (h : read_item c uid iid = some s) :
    ((add_flight_to_itinerary c uid iid airline fn dep dept arr arrt seat fconf fcost dm am now).1.isSuccess = true ∧
     storedFlights (add_flight_to_itinerary c uid iid airline fn dep dept arr arrt seat fconf fcost dm am now).2 uid iid =
       some (s.doc.flights ++ [mkFlight airline fn dep dept arr arrt seat fconf fcost dm am]) ∧
     storedActivities (add_flight_to_itinerary c uid iid airline fn dep dept arr arrt seat fconf fcost dm am now).2 uid iid =
       some s.doc.activities ∧
     storedAccommodations (add_flight_to_itinerary c uid iid airline fn dep dept arr arrt seat fconf fcost dm am now).2 uid iid =
       some s.doc.accommodations ∧
     storedRestaurants (add_flight_to_itinerary c uid iid airline fn dep dept arr arrt seat fconf fcost dm am now).2 uid iid =
       some s.doc.restaurants) ∧
    ((add_accommodation_to_itinerary c uid iid aname aty aci aco aaddr aconf acost amaps now).1.isSuccess = true ∧
     storedAccommodations (add_accommodation_to_itinerary c uid iid aname aty aci aco aaddr aconf acost amaps now).2 uid iid =
       some (s.doc.accommodations ++ [mkAccommodation aname aty aci aco aaddr aconf acost amaps]) ∧
     storedFlights (add_accommodation_to_itinerary c uid iid aname aty aci aco aaddr aconf acost amaps now).2 uid iid =
       some s.doc.flights ∧
     storedActivities (add_accommodation_to_itinerary c uid iid aname aty aci aco aaddr aconf acost amaps now).2 uid iid =
       some s.doc.activities ∧
     storedRestaurants (add_accommodation_to_itinerary c uid iid aname aty aci aco aaddr aconf acost amaps now).2 uid iid =
       some s.doc.restaurants) ∧
    ((add_activity_to_itinerary c uid iid vname vdesc vdate vtime vloc vcost vbconf vmaps now).1.isSuccess = true ∧
     storedActivities (add_activity_to_itinerary c uid iid vname vdesc vdate vtime vloc vcost vbconf vmaps now).2 uid iid =
       some (s.doc.activities ++ [mkActivity vname vdesc vdate vtime vloc vcost vbconf vmaps]) ∧
     storedFlights (add_activity_to_itinerary c uid iid vname vdesc vdate vtime vloc vcost vbconf vmaps now).2 uid iid =
       some s.doc.flights ∧
     storedAccommodations (add_activity_to_itinerary c uid iid vname vdesc vdate vtime vloc vcost vbconf vmaps now).2 uid iid =
       some s.doc.accommodations ∧
     storedRestaurants (add_activity_to_itinerary c uid iid vname vdesc vdate vtime vloc vcost vbconf vmaps now).2 uid iid =
       some s.doc.restaurants) ∧
    ((add_restaurant_to_itinerary c uid iid rname rcuisine rdate rtime raddr rrconf rcost rmaps now).1.isSuccess = true ∧
     storedRestaurants (add_restaurant_to_itinerary c uid iid rname rcuisine rdate rtime raddr rrconf rcost rmaps now).2 uid iid =
       some (s.doc.restaurants ++ [mkRestaurant rname rcuisine rdate rtime raddr rrconf rcost rmaps]) ∧
     storedFlights (add_restaurant_to_itinerary c uid iid rname rcuisine rdate rtime raddr rrconf rcost rmaps now).2 uid iid =
       some s.doc.flights ∧
     storedActivities (add_restaurant_to_itinerary c uid iid rname rcuisine rdate rtime raddr rrconf rcost rmaps now).2 uid iid =
       some s.doc.activities ∧
     storedAccommodations (add_restaurant_to_itinerary c uid iid rname rcuisine rdate rtime raddr rrconf rcost rmaps now).2 uid iid =
       some s.doc.accommodations) := by
  refine ⟨?_, ?_, ?_, ?_⟩
  · have hs := stored_after_patch h
      { flights := some (s.doc.flights ++ [mkFlight airline fn dep dept arr arrt seat fconf fcost dm am]) } now
    rw [add_flight_eq h airline fn dep dept arr arrt seat fconf fcost dm am now]
    refine ⟨rfl, ?_, ?_, ?_, ?_⟩ <;>
      simp only [storedFlights, storedActivities, storedAccommodations,
        storedRestaurants] <;>
      rw [hs] <;>
      simp [applyPatch]
  · have hs := stored_after_patch h
      { accommodations := some (s.doc.accommodations ++ [mkAccommodation aname aty aci aco aaddr aconf acost amaps]) } now
    rw [add_accommodation_eq h aname aty aci aco aaddr aconf acost amaps now]
    refine ⟨rfl, ?_, ?_, ?_, ?_⟩ <;>
      simp only [storedFlights, storedActivities, storedAccommodations,
        storedRestaurants] <;>
      rw [hs] <;>
      simp [applyPatch]
  · have hs := stored_after_patch h
      { activities := some (s.doc.activities ++ [mkActivity vname vdesc vdate vtime vloc vcost vbconf vmaps]) } now
    rw [add_activity_eq h vname vdesc vdate vtime vloc vcost vbconf vmaps now]
    refine ⟨rfl, ?_, ?_, ?_, ?_⟩ <;>
      simp only [storedFlights, storedActivities, storedAccommodations,
        storedRestaurants] <;>
      rw [hs] <;>
      simp [applyPatch]
  · have hs := stored_after_patch h
      { restaurants := some (s.doc.restaurants ++ [mkRestaurant rname rcuisine rdate rtime raddr rrconf rcost rmaps]) } now
    rw [add_restaurant_eq h rname rcuisine rdate rtime raddr rrconf rcost rmaps now]
    refine ⟨rfl, ?_, ?_, ?_, ?_⟩ <;>
      simp only [storedFlights, storedActivities, storedAccommodations,
        storedRestaurants] <;>
      rw [hs] <;>
      simp [applyPatch]

/-- Witness for C4: all four add operations performed concretely on the
sample itinerary stored at token 0. -/
theorem c4_witness :
    read_item c2container "user-1" "itin-1" = some ⟨sampleItin, 0⟩ ∧
    ((add_flight_to_itinerary c2container "user-1" "itin-1" "Delta" "DL1" "JFK" "2025-06-01T08:00:00" "NRT" "2025-06-02T14:00:00" none none none none none "2025-05-04T00:00:00").1.isSuccess = true ∧
     storedFlights (add_flight_to_itinerary c2container "user-1" "itin-1" "Delta" "DL1" "JFK" "2025-06-01T08:00:00" "NRT" "2025-06-02T14:00:00" none none none none none "2025-05-04T00:00:00").2 "user-1" "itin-1" =
       some (sampleItin.flights ++ [mkFlight "Delta" "DL1" "JFK" "2025-06-01T08:00:00" "NRT" "2025-06-02T14:00:00" none none none none none]) ∧
     storedActivities (add_flight_to_itinerary c2container "user-1" "itin-1" "Delta" "DL1" "JFK" "2025-06-01T08:00:00" "NRT" "2025-06-02T14:00:00" none none none none none "2025-05-04T00:00:00").2 "user-1" "itin-1" =
       some sampleItin.activities ∧
     storedAccommodations (add_flight_to_itinerary c2container "user-1" "itin-1" "Delta" "DL1" "JFK" "2025-06-01T08:00:00" "NRT" "2025-06-02T14:00:00" none none none none none "2025-05-04T00:00:00").2 "user-1" "itin-1" =
       some sampleItin.accommodations ∧
     storedRestaurants (add_flight_to_itinerary c2container "user-1" "itin-1" "Delta" "DL1" "JFK" "2025-06-01T08:00:00" "NRT" "2025-06-02T14:00:00" none none none none none "2025-05-04T00:00:00").2 "user-1" "itin-1" =
       some sampleItin.restaurants) ∧
    ((add_accommodation_to_itinerary c2container "user-1" "itin-1" "Grand Hyatt" "hotel" "2025-06-01" "2025-06-05" (some "1-2-3 Roppongi") none none none "2025-05-04T00:00:00").1.isSuccess = true ∧
     storedAccommodations (add_accommodation_to_itinerary c2container "user-1" "itin-1" "Grand Hyatt" "hotel" "2025-06-01" "2025-06-05" (some "1-2-3 Roppongi") none none none "2025-05-04T00:00:00").2 "user-1" "itin-1" =
       some (sampleItin.accommodations ++ [mkAccommodation "Grand Hyatt" "hotel" "2025-06-01" "2025-06-05" (some "1-2-3 Roppongi") none none none]) ∧
     storedFlights (add_accommodation_to_itinerary c2container "user-1" "itin-1" "Grand Hyatt" "hotel" "2025-06-01" "2025-06-05" (some "1-2-3 Roppongi") none none none "2025-05-04T00:00:00").2 "user-1" "itin-1" =
       some sampleItin.flights ∧
     storedActivities (add_accommodation_to_itinerary c2container "user-1" "itin-1" "Grand Hyatt" "hotel" "2025-06-01" "2025-06-05" (some "1-2-3 Roppongi") none none none "2025-05-04T00:00:00").2 "user-1" "itin-1" =
       some sampleItin.activities ∧
     storedRestaurants (add_accommodation_to_itinerary c2container "user-1" "itin-1" "Grand Hyatt" "hotel" "2025-06-01" "2025-06-05" (some "1-2-3 Roppongi") none none none "2025-05-04T00:00:00").2 "user-1" "itin-1" =
       some sampleItin.restaurants) ∧
    ((add_activity_to_itinerary c2container "user-1" "itin-1" "Museum Visit" none (some "2025-06-03") (some "10:00") (some "Ueno Park") none none none "2025-05-04T00:00:00").1.isSuccess = true ∧
     storedActivities (add_activity_to_itinerary c2container "user-1" "itin-1" "Museum Visit" none (some "2025-06-03") (some "10:00") (some "Ueno Park") none none none "2025-05-04T00:00:00").2 "user-1" "itin-1" =
       some (sampleItin.activities ++ [mkActivity "Museum Visit" none (some "2025-06-03") (some "10:00") (some "Ueno Park") none none none]) ∧
     storedFlights (add_activity_to_itinerary c2container "user-1" "itin-1" "Museum Visit" none (some "2025-06-03") (some "10:00") (some "Ueno Park") none none none "2025-05-04T00:00:00").2 "user-1" "itin-1" =
       some sampleItin.flights ∧
     storedAccommodations (add_activity_to_itinerary c2container "user-1" "itin-1" "Museum Visit" none (some "2025-06-03") (some "10:00") (some "Ueno Park") none none none "2025-05-04T00:00:00").2 "user-1" "itin-1" =
       some sampleItin.accommodations ∧
     storedRestaurants (add_activity_to_itinerary c2container "user-1" "itin-1" "Museum Visit" none (some "2025-06-03") (some "10:00") (some "Ueno Park") none none none "2025-05-04T00:00:00").2 "user-1" "itin-1" =
       some sampleItin.restaurants) ∧
    ((add_restaurant_to_itinerary c2container "user-1" "itin-1" "Jiro" (some "sushi") (some "2025-06-04") (some "19:00") none none none none "2025-05-04T00:00:00").1.isSuccess = true ∧
     storedRestaurants (add_restaurant_to_itinerary c2container "user-1" "itin-1" "Jiro" (some "sushi") (some "2025-06-04") (some "19:00") none none none none "2025-05-04T00:00:00").2 "user-1" "itin-1" =
       some (sampleItin.restaurants ++ [mkRestaurant "Jiro" (some "sushi") (some "2025-06-04") (some "19:00") none none none none]) ∧
     storedFlights (add_restaurant_to_itinerary c2container "user-1" "itin-1" "Jiro" (some "sushi") (some "2025-06-04") (some "19:00") none none none none "2025-05-04T00:00:00").2 "user-1" "itin-1" =
       some sampleItin.flights ∧
     storedActivities (add_restaurant_to_itinerary c2container "user-1" "itin-1" "Jiro" (some "sushi") (some "2025-06-04") (some "19:00") none none none none "2025-05-04T00:00:00").2 "user-1" "itin-1" =
       some sampleItin.activities ∧
     storedAccommodations (add_restaurant_to_itinerary c2container "user-1" "itin-1" "Jiro" (some "sushi") (some "2025-06-04") (some "19:00") none none none none "2025-05-04T00:00:00").2 "user-1" "itin-1" =
       some sampleItin.accommodations) :=
  ⟨rfl,
   c4_adds_compose c2container "user-1" "itin-1" ⟨sampleItin, 0⟩
     "Delta" "DL1" "JFK" "2025-06-01T08:00:00" "NRT" "2025-06-02T14:00:00"
     none none none none none
     "Grand Hyatt" "hotel" "2025-06-01" "2025-06-05" (some "1-2-3 Roppongi")
     none none none
     "Museum Visit" none (some "2025-06-03") (some "10:00") (some "Ueno Park")
     none none none
     "Jiro" (some "sushi") (some "2025-06-04") (some "19:00") none none none none
     "2025-05-04T00:00:00" rfl⟩

/-- C4 counterexample: the update phase of an add is not conditioned on any
token obtained from its get.  A pending `add_flight_to_itinerary` read the
itinerary at token 0 and computed `c4staleFlights`; before it committed,
another update advanced the store to `c4container` (token 1).  The claim
says the add updates "with the token obtained from the get", which per the
section 4.6 contract would make the stale commit fail with `Conflict`
(shown by `spec_gateway_update` at expected token 0); the source commit
succeeds unconditionally. -/
theorem c4_counterexample :
    (read_item c4container "user-1" "itin-1").map (fun t => t.etag) = some 1 ∧
    (add_flight_commit c4container "user-1" "itin-1" c4staleFlights "2025-05-02T01:00:00").1.isSuccess = true ∧
    spec_gateway_update c4container "user-1" "itin-1" { flights := some c4staleFlights } 0 "2025-05-02T01:00:00" =
      (.conflict, c4container) := by
  refine ⟨rfl, rfl, rfl⟩

/-- C2 amended: two concurrent add operations against the same itinerary
can silently lose one addition.  Each add performs a single unconditional
get-append-update cycle with no conflict detection and no retry: under the
interleaving "A reads, B reads, A writes, B writes" both calls report
success, yet the final stored flights list is the original list with only
the second flight appended — the first addition is lost whenever its
flight is not already in that list. -/
theorem c2_interleaved_adds_lose_first (c : Container) (uid iid : String)
    (s : StoredItem) (fA fB : Flight) (nowA nowB : String)
    (h : read_item c uid iid = some s) :
    (two_adds_interleaved c uid iid fA fB nowA nowB).1.isSuccess = true ∧
    (two_adds_interleaved c uid iid fA fB nowA nowB).2.1.isSuccess = true ∧
    storedFlights (two_adds_interleaved c uid iid fA fB nowA nowB).2.2 uid iid =
      some (s.doc.flights ++ [fB]) := by
  have hg := get_itinerary_some h
  have h1 : read_item
      (upsert_item c (applyPatch s.doc { flights := some (s.doc.flights ++ [fA]) } nowA))
      uid iid =
      some ⟨applyPatch s.doc { flights := some (s.doc.flights ++ [fA]) } nowA,
            s.etag + 1⟩ :=
    stored_after_patch h { flights := some (s.doc.flights ++ [fA]) } nowA
  have h2 := stored_after_patch h1 { flights := some (s.doc.flights ++ [fB]) } nowB
  simp only [two_adds_interleaved, hg, add_flight_commit]
  rw [@update_success c uid iid { flights := some (s.doc.flights ++ [fA]) } nowA s h rfl]
  rw [@update_success _ uid iid { flights := some (s.doc.flights ++ [fB]) } nowB _ h1 rfl]
  refine ⟨rfl, rfl, ?_⟩
  simp only [storedFlights]
  rw [h2]
  simp [applyPatch]

/-- Witness for C2: the interleaved run on the sample itinerary, flights A
and B added concurrently; both succeed and the final list is the original
with only flight B appended. -/
theorem c2_witness :
    read_item c2container "user-1" "itin-1" = some ⟨sampleItin, 0⟩ ∧
    ((two_adds_interleaved c2container "user-1" "itin-1" c2flightA c2flightB "2025-05-05T00:00:00" "2025-05-05T00:00:01").1.isSuccess = true ∧
     (two_adds_interleaved c2container "user-1" "itin-1" c2flightA c2flightB "2025-05-05T00:00:00" "2025-05-05T00:00:01").2.1.isSuccess = true ∧
     storedFlights (two_adds_interleaved c2container "user-1" "itin-1" c2flightA c2flightB "2025-05-05T00:00:00" "2025-05-05T00:00:01").2.2 "user-1" "itin-1" =
       some (sampleItin.flights ++ [c2flightB])) :=
  ⟨rfl,
   c2_interleaved_adds_lose_first c2container "user-1" "itin-1"
     ⟨sampleItin, 0⟩ c2flightA c2flightB
     "2025-05-05T00:00:00" "2025-05-05T00:00:01" rfl⟩

/-- C2 counterexample: concurrently adding flight A and flight B to the
empty flights list of the sample itinerary under the interleaving
"A reads, B reads, A writes, B writes": both operations report success,
but the resulting stored flights list is `[B]` — flight A has been lost,
and no `Conflict` was ever reported or retried. -/
theorem c2_counterexample :
    (two_adds_interleaved c2container "user-1" "itin-1" c2flightA c2flightB "2025-05-06T00:00:00" "2025-05-06T00:00:01").1.isSuccess = true ∧
    (two_adds_interleaved c2container "user-1" "itin-1" c2flightA c2flightB "2025-05-06T00:00:00" "2025-05-06T00:00:01").2.1.isSuccess = true ∧
    storedFlights (two_adds_interleaved c2container "user-1" "itin-1" c2flightA c2flightB "2025-05-06T00:00:00" "2025-05-06T00:00:01").2.2 "user-1" "itin-1" =
      some [c2flightB] ∧
    c2flightA ∉ [c2flightB] := by
  refine ⟨rfl, rfl, rfl, by decide⟩

/-- C8: the location-verification collaborator yields no data when the
Azure Maps key is unconfigured (or empty), when the HTTP call raises, when
the response status is not 200, and when the results array is empty; and
an add operation performed with failed verification still succeeds — the
new item is stored with the caller-supplied address/location text (absent
when the caller supplied none or an empty string, per Python truthiness)
and carries no verified-location data.  Verification failure never makes
an add fail. -/
theorem c8_verification_failure_never_blocks (c : Container)
    (uid iid : String) (s : StoredItem)
    (aname aty aci aco : String) (aaddr aconf : Option String) (acost : Option Rat)
    (vname : String) (vdesc vdate vtime vloc : Option String) (vcost : Option Rat)
    (vbconf : Option String)
    (rname : String) (rcuisine rdate rtime raddr rrconf : Option String)
    (rcost : Option Rat)
    (airline fn dep dept arr arrt : String) (seat fconf : Option String)
    (fcost : Option Rat)
    (key : Option String) (out : MapsApiOutcome) (code : Nat)
    (results : List RawResult) (now : String)
    (h : read_item c uid iid = some s) (hcode : code ≠ 200) :
    verify_location_with_azure_maps none out = none ∧
    verify_location_with_azure_maps (some "") out = none ∧
    verify_location_with_azure_maps key .exn = none ∧
    verify_location_with_azure_maps key (.response code results) = none ∧
    verify_location_with_azure_maps key (.response 200 []) = none ∧
    ((add_accommodation_to_itinerary c uid iid aname aty aci aco aaddr aconf acost none now).1.isSuccess = true ∧
     storedAccommodations (add_accommodation_to_itinerary c uid iid aname aty aci aco aaddr aconf acost none now).2 uid iid =
       some (s.doc.accommodations ++ [mkAccommodation aname aty aci aco aaddr aconf acost none]) ∧
     (mkAccommodation aname aty aci aco aaddr aconf acost none).address = truthyOpt aaddr ∧
     (mkAccommodation aname aty aci aco aaddr aconf acost none).azureMapsData = none) ∧
    ((add_activity_to_itinerary c uid iid vname vdesc vdate vtime vloc vcost vbconf none now).1.isSuccess = true ∧
     storedActivities (add_activity_to_itinerary c uid iid vname vdesc vdate vtime vloc vcost vbconf none now).2 uid iid =
       some (s.doc.activities ++ [mkActivity vname vdesc vdate vtime vloc vcost vbconf none]) ∧
     (mkActivity vname vdesc vdate vtime vloc vcost vbconf none).location = truthyOpt vloc ∧
     (mkActivity vname vdesc vdate vtime vloc vcost vbconf none).azureMapsData = none) ∧
    ((add_restaurant_to_itinerary c uid iid rname rcuisine rdate rtime raddr rrconf rcost none now).1.isSuccess = true ∧
     storedRestaurants (add_restaurant_to_itinerary c uid iid rname rcuisine rdate rtime raddr rrconf rcost none now).2 uid iid =
       some (s.doc.restaurants ++ [mkRestaurant rname rcuisine rdate rtime raddr rrconf rcost none]) ∧
     (mkRestaurant rname rcuisine rdate rtime raddr rrconf rcost none).address = truthyOpt raddr ∧
     (mkRestaurant rname rcuisine rdate rtime raddr rrconf rcost none).azureMapsData = none) ∧
    ((add_flight_to_itinerary c uid iid airline fn dep dept arr arrt seat fconf fcost none none now).1.isSuccess = true ∧
     storedFlights (add_flight_to_itinerary c uid iid airline fn dep dept arr arrt seat fconf fcost none none now).2 uid iid =
       some (s.doc.flights ++ [mkFlight airline fn dep dept arr arrt seat fconf fcost none none]) ∧
     (mkFlight airline fn dep dept arr arrt seat fconf fcost none none).departureMapsData = none ∧
     (mkFlight airline fn dep dept arr arrt seat fconf fcost none none).arrivalMapsData = none) := by
  refine ⟨rfl, ?_, ?_, ?_, ?_, ?_, ?_, ?_, ?_⟩
  · simp [verify_location_with_azure_maps, pyTruthy]
  · unfold verify_location_with_azure_maps
    split
    · rfl
    · rfl
  · have hb : (code != 200) = true := by simp [hcode]
    unfold verify_location_with_azure_maps
    split
    · rfl
    · simp [hb]
  · unfold verify_location_with_azure_maps
    split
    · rfl
    · rfl
  · have hs := stored_after_patch h
      { accommodations := some (s.doc.accommodations ++ [mkAccommodation aname aty aci aco aaddr aconf acost none]) } now
    rw [add_accommodation_eq h aname aty aci aco aaddr aconf acost none now]
    refine ⟨rfl, ?_, rfl, rfl⟩
    simp only [storedAccommodations]
    rw [hs]
    simp [applyPatch]
  · have hs := stored_after_patch h
      { activities := some (s.doc.activities ++ [mkActivity vname vdesc vdate vtime vloc vcost vbconf none]) } now
    rw [add_activity_eq h vname vdesc vdate vtime vloc vcost vbconf none now]
    refine ⟨rfl, ?_, rfl, rfl⟩
    simp only [storedActivities]
    rw [hs]
    simp [applyPatch]
  · have hs := stored_after_patch h
      { restaurants := some (s.doc.restaurants ++ [mkRestaurant rname rcuisine rdate rtime raddr rrconf rcost none]) } now
    rw [add_restaurant_eq h rname rcuisine rdate rtime raddr rrconf rcost none now]
    refine ⟨rfl, ?_, rfl, rfl⟩
    simp only [storedRestaurants]
    rw [hs]
    simp [applyPatch]
  · have hs := stored_after_patch h
      { flights := some (s.doc.flights ++ [mkFlight airline fn dep dept arr arrt seat fconf fcost none none]) } now
    rw [add_flight_eq h airline fn dep dept arr arrt seat fconf fcost none none now]
    refine ⟨rfl, ?_, rfl, rfl⟩
    simp only [storedFlights]
    rw [hs]
    simp [applyPatch]

/-- Witness for C8: every collaborator-failure case concretely yields no
verification data, and the four add operations all succeed on the sample
itinerary with the caller-supplied address/location text stored. -/
theorem c8_witness :
    read_item c2container "user-1" "itin-1" = some ⟨sampleItin, 0⟩ ∧
    (500 : Nat) ≠ 200 ∧
    (verify_location_with_azure_maps none .exn = none ∧
     verify_location_with_azure_maps (some "") .exn = none ∧
     verify_location_with_azure_maps (some "subscription-key") .exn = none ∧
     verify_location_with_azure_maps (some "subscription-key") (.response 500 []) = none ∧
     verify_location_with_azure_maps (some "subscription-key") (.response 200 []) = none ∧
     ((add_accommodation_to_itinerary c2container "user-1" "itin-1" "Hotel David" "hotel" "2025-06-01" "2025-06-05" (some "123 Collins Ave") none none none "2025-05-07T00:00:00").1.isSuccess = true ∧
      storedAccommodations (add_accommodation_to_itinerary c2container "user-1" "itin-1" "Hotel David" "hotel" "2025-06-01" "2025-06-05" (some "123 Collins Ave") none none none "2025-05-07T00:00:00").2 "user-1" "itin-1" =
        some (sampleItin.accommodations ++ [mkAccommodation "Hotel David" "hotel" "2025-06-01" "2025-06-05" (some "123 Collins Ave") none none none]) ∧
      (mkAccommodation "Hotel David" "hotel" "2025-06-01" "2025-06-05" (some "123 Collins Ave") none none none).address = truthyOpt (some "123 Collins Ave") ∧
      (mkAccommodation "Hotel David" "hotel" "2025-06-01" "2025-06-05" (some "123 Collins Ave") none none none).azureMapsData = none) ∧
     ((add_activity_to_itinerary c2container "user-1" "itin-1" "Louvre" none (some "2025-06-02") none (some "Rue de Rivoli") none none none "2025-05-07T00:00:00").1.isSuccess = true ∧
      storedActivities (add_activity_to_itinerary c2container "user-1" "itin-1" "Louvre" none (some "2025-06-02") none (some "Rue de Rivoli") none none none "2025-05-07T00:00:00").2 "user-1" "itin-1" =
        some (sampleItin.activities ++ [mkActivity "Louvre" none (some "2025-06-02") none (some "Rue de Rivoli") none none none]) ∧
      (mkActivity "Louvre" none (some "2025-06-02") none (some "Rue de Rivoli") none none none).location = truthyOpt (some "Rue de Rivoli") ∧
      (mkActivity "Louvre" none (some "2025-06-02") none (some "Rue de Rivoli") none none none).azureMapsData = none) ∧
     ((add_restaurant_to_itinerary c2container "user-1" "itin-1" "Ramen Shop" none none none (some "4-2-15 Ginza") none none none "2025-05-07T00:00:00").1.isSuccess = true ∧
      storedRestaurants (add_restaurant_to_itinerary c2container "user-1" "itin-1" "Ramen Shop" none none none (some "4-2-15 Ginza") none none none "2025-05-07T00:00:00").2 "user-1" "itin-1" =
        some (sampleItin.restaurants ++ [mkRestaurant "Ramen Shop" none none none (some "4-2-15 Ginza") none none none]) ∧
      (mkRestaurant "Ramen Shop" none none none (some "4-2-15 Ginza") none none none).address = truthyOpt (some "4-2-15 Ginza") ∧
      (mkRestaurant "Ramen Shop" none none none (some "4-2-15 Ginza") none none none).azureMapsData = none) ∧
     ((add_flight_to_itinerary c2container "user-1" "itin-1" "Delta" "DL2" "JFK" "2025-06-01T08:00:00" "NRT" "2025-06-02T14:00:00" none none none none none "2025-05-07T00:00:00").1.isSuccess = true ∧
      storedFlights (add_flight_to_itinerary c2container "user-1" "itin-1" "Delta" "DL2" "JFK" "2025-06-01T08:00:00" "NRT" "2025-06-02T14:00:00" none none none none none "2025-05-07T00:00:00").2 "user-1" "itin-1" =
        some (sampleItin.flights ++ [mkFlight "Delta" "DL2" "JFK" "2025-06-01T08:00:00" "NRT" "2025-06-02T14:00:00" none none none none none]) ∧
      (mkFlight "Delta" "DL2" "JFK" "2025-06-01T08:00:00" "NRT" "2025-06-02T14:00:00" none none none none none).departureMapsData = none ∧
      (mkFlight "Delta" "DL2" "JFK" "2025-06-01T08:00:00" "NRT" "2025-06-02T14:00:00" none none none none none).arrivalMapsData = none)) :=
  ⟨rfl, by decide,
   c8_verification_failure_never_blocks c2container "user-1" "itin-1"
     ⟨sampleItin, 0⟩
     "Hotel David" "hotel" "2025-06-01" "2025-06-05" (some "123 Collins Ave") none none
     "Louvre" none (some "2025-06-02") none (some "Rue de Rivoli") none none
     "Ramen Shop" none none none (some "4-2-15 Ginza") none none
     "Delta" "DL2" "JFK" "2025-06-01T08:00:00" "NRT" "2025-06-02T14:00:00" none none none
     (some "subscription-key") .exn 500 [] "2025-05-07T00:00:00"
     rfl (by decide)⟩

/-- C9: `add_activity_to_itinerary` performs no date-range validation —
the supplied activity date is arbitrary, entirely unconstrained by the
owning itinerary's `startDate`/`endDate` (no hypothesis relates them), and
the add succeeds and appends the activity carrying that date verbatim
(stored when Python-truthy), exactly as it would for an in-range date. -/
theorem c9_no_date_range_validation (c : Container) (uid iid : String)
    (s : StoredItem) (vname : String) (vdesc vdate vtime vloc : Option String)
    (vcost : Option Rat) (vbconf : Option String) (vmaps : Option AzureMapsData)
    (now : String) (h : read_item c uid iid = some s) :
    (add_activity_to_itinerary c uid iid vname vdesc vdate vtime vloc vcost vbconf vmaps now).1.isSuccess = true ∧
    storedActivities (add_activity_to_itinerary c uid iid vname vdesc vdate vtime vloc vcost vbconf vmaps now).2 uid iid =
      some (s.doc.activities ++ [mkActivity vname vdesc vdate vtime vloc vcost vbconf vmaps]) ∧
    (mkActivity vname vdesc vdate vtime vloc vcost vbconf vmaps).date = truthyOpt vdate := by
  have hs := stored_after_patch h
    { activities := some (s.doc.activities ++ [mkActivity vname vdesc vdate vtime vloc vcost vbconf vmaps]) } now
  rw [add_activity_eq h vname vdesc vdate vtime vloc vcost vbconf vmaps now]
  refine ⟨rfl, ?_, rfl⟩
  simp only [storedActivities]
  rw [hs]
  simp [applyPatch]

/-- Witness for C9 at the spec's scenario 4 input: the sample itinerary
runs 2025-06-01 to 2025-06-10, and the activity date 2025-07-01 lies
outside that range; the add succeeds and stores the activity with that
date unchanged. -/
theorem c9_witness :
    sampleItin.startDate = "2025-06-01" ∧
    sampleItin.endDate = "2025-06-10" ∧
    read_item c9container "user-1" "itin-1" = some ⟨sampleItin, 0⟩ ∧
    ((add_activity_to_itinerary c9container "user-1" "itin-1" "Beach Day" none (some "2025-07-01") none (some "Okinawa") none none none "2025-05-08T00:00:00").1.isSuccess = true ∧
     storedActivities (add_activity_to_itinerary c9container "user-1" "itin-1" "Beach Day" none (some "2025-07-01") none (some "Okinawa") none none none "2025-05-08T00:00:00").2 "user-1" "itin-1" =
       some (sampleItin.activities ++ [mkActivity "Beach Day" none (some "2025-07-01") none (some "Okinawa") none none none]) ∧
     (mkActivity "Beach Day" none (some "2025-07-01") none (some "Okinawa") none none none).date = truthyOpt (some "2025-07-01")) :=
  ⟨rfl, rfl, rfl,
   c9_no_date_range_validation c9container "user-1" "itin-1" ⟨sampleItin, 0⟩
     "Beach Day" none (some "2025-07-01") none (some "Okinawa") none none none
     "2025-05-08T00:00:00" rfl⟩

/-- C10 counterexample: supplying `start_date=""` is supplying a start
date that fails ISO parsing (Python `datetime.fromisoformat("")` raises
`ValueError`), so the claim requires a `validation_error` with the store
unmodified.  Because the guard `if start_date or end_date:` uses Python
truthiness, the empty string bypasses validation entirely: the update
reports success, modifies the store, and writes the unparseable empty
string as the stored `startDate`. -/
theorem c10_counterexample :
    fromisoformat "" = none ∧
    (update_itinerary c10container "user-1" "itin-1" c10patch "2025-05-09T00:00:00").1.isSuccess = true ∧
    (read_item (update_itinerary c10container "user-1" "itin-1" c10patch "2025-05-09T00:00:00").2 "user-1" "itin-1").map (fun t => t.doc.startDate) =
      some "" ∧
    (update_itinerary c10container "user-1" "itin-1" c10patch "2025-05-09T00:00:00").2 ≠ c10container := by
  refine ⟨rfl, rfl, rfl, by decide⟩

/-- C10 amended: for every `update_itinerary` call that supplies a
Python-truthy (non-empty) `start_date` and/or `end_date` whose effective
pair — each truthy supplied value, else the stored itinerary's value —
parses (strict naive ISO date or datetime) with start on or after end, the
call returns a structured error with `error_type` `validation_error` and
the container is unchanged; every non-success result of `update_itinerary`
leaves the container unchanged (errors are returned before any write);
and a supplied date that fails ISO parsing (the concrete unparseable
`"not-a-date"`) likewise yields `validation_error` with no write.  A
supplied empty-string date does not count as provided for validation.
The quantified date hypotheses are in the parse-success direction, on
which the model and the interpreter agree. -/
theorem c10_validation_rejects_bad_dates (c : Container) (uid iid : String)
    (p : UpdatePatch) (now : String) (s : StoredItem) (st en : Nat)
    (c2 : Container) (uid2 iid2 : String) (p2 : UpdatePatch) (now2 : String)
    (h : read_item c uid iid = some s) (hprov : datesProvided p = true)
    (hst : fromisoformat (effectiveStart p s.doc) = some st)
    (hen : fromisoformat (effectiveEnd p s.doc) = some en)
    (hord : en ≤ st) :
    ((update_itinerary c uid iid p now).1.errorType = some "validation_error" ∧
     (update_itinerary c uid iid p now).2 = c) ∧
    ((update_itinerary c2 uid2 iid2 p2 now2).1.isSuccess = false →
      (update_itinerary c2 uid2 iid2 p2 now2).2 = c2) ∧
    ((update_itinerary c10container "user-1" "itin-1"
        { start_date := some "not-a-date" } now).1.errorType =
       some "validation_error" ∧
     (update_itinerary c10container "user-1" "itin-1"
        { start_date := some "not-a-date" } now).2 = c10container) := by
  refine ⟨?_, ?_, rfl, rfl⟩
  · have hm : validateDates p s.doc =
        some (.error "validation_error"
          "Invalid dates: start date must be before end date. Please provide valid dates.") := by
      unfold validateDates
      rw [hprov, hst, hen]
      simp [hord]
    simp [update_itinerary, h, hm, ToolResult.errorType]
  · intro hfail
    unfold update_itinerary at hfail ⊢
    cases hr : read_item c2 uid2 iid2 with
    | none => simp
    | some s2 =>
      cases hv : validateDates p2 s2.doc with
      | some err => simp [hr, hv]
      | none => simp [hr, hv, ToolResult.isSuccess] at hfail

/-- Witness for C10: supplying `start_date=2025-06-10` and
`end_date=2025-06-01` (start after end, both parsing) yields a
`validation_error` and leaves the container untouched; an update on a
missing itinerary (non-success) also leaves its container untouched; and
the unparseable `start_date="not-a-date"` yields `validation_error` with
no write. -/
theorem c10_witness :
    read_item c10container "user-1" "itin-1" = some ⟨sampleItin, 0⟩ ∧
    datesProvided { start_date := some "2025-06-10", end_date := some "2025-06-01" } = true ∧
    fromisoformat (effectiveStart { start_date := some "2025-06-10", end_date := some "2025-06-01" } sampleItin) =
      some 20250610000000 ∧
    fromisoformat (effectiveEnd { start_date := some "2025-06-10", end_date := some "2025-06-01" } sampleItin) =
      some 20250601000000 ∧
    ((update_itinerary c10container "user-1" "itin-1" { start_date := some "2025-06-10", end_date := some "2025-06-01" } "2025-05-09T01:00:00").1.errorType =
       some "validation_error" ∧
     (update_itinerary c10container "user-1" "itin-1" { start_date := some "2025-06-10", end_date := some "2025-06-01" } "2025-05-09T01:00:00").2 =
       c10container) ∧
    (update_itinerary [] "user-1" "itin-1" {} "2025-05-09T01:00:00").2 = ([] : Container) ∧
    ((update_itinerary c10container "user-1" "itin-1"
        { start_date := some "not-a-date" } "2025-05-09T01:00:00").1.errorType =
       some "validation_error" ∧
     (update_itinerary c10container "user-1" "itin-1"
        { start_date := some "not-a-date" } "2025-05-09T01:00:00").2 = c10container) := by
  have hmain := c10_validation_rejects_bad_dates c10container "user-1" "itin-1"
    { start_date := some "2025-06-10", end_date := some "2025-06-01" }
    "2025-05-09T01:00:00" ⟨sampleItin, 0⟩ 20250610000000 20250601000000
    ([] : Container) "user-1" "itin-1" {} "2025-05-09T01:00:00"
    rfl rfl rfl rfl (by decide)
  exact ⟨rfl, rfl, rfl, rfl, hmain.1, hmain.2.1 rfl, hmain.2.2⟩
